import Mathlib

/-!
Shallow embedding of `src/processingblocks/processors.py`: the
`SeparateProcess` wrapper around `multiprocessing.Process`, the
`ProcessingUnit` lifecycle driver, and the `ProcessingCluster` extension.

Machine-level conventions of the embedding:
* `PyProcess` models a `multiprocessing.Process` object with the documented
  CPython semantics that matter here: a process object is single-use
  (`start` on an already-started object raises), `close` may only be called
  on a non-running process and afterwards `is_alive`/`join`/`start` raise
  `ValueError`, while the configuration attributes (`_target`, `_name`,
  `_args`, `_kwargs`, `daemon`) remain readable.
* Fallible Python calls return `Res α` (`ok` or `err` with a Python
  exception class).
* Time is abstracted: a live process carries `duration`, the remaining run
  time; a blocking `join(t)` consumes `min t duration`.
* `ProcessingUnit`'s execution methods are embedded as the list of observable
  events they perform, in order (`trace semantics`); the only state they
  mutate is the `_joined` flag, which is recorded as explicit
  `Event.setJoined` events and replayed by `applyEvent`.
-/

namespace ProcessingBlocks

/-- Python exception classes that the modelled code can raise. -/
inductive PyError where
  | valueError
  | assertionError
  | attributeError
  | osError
deriving DecidableEq, Repr

/-- Result of a fallible Python call: a value or a raised exception. -/
inductive Res (α : Type) where
  | ok (a : α)
  | err (e : PyError)
deriving DecidableEq, Repr

/-- Non-fatal warnings emitted through `warnings.warn`. -/
inductive Warning where
  | timeoutWarning
  | raceWarning
deriving DecidableEq, Repr

/-- Model of a `multiprocessing.Process` object.  `target` is an opaque
entry-reference id, `args`/`kwargs` the launch arguments, `daemon` the daemon
flag (CPython default `False`).  `started`/`alive`/`exitcode`/`closed` model
the OS lifecycle; `duration` is the abstract remaining running time of an
alive process, used by the timed joins. -/
structure PyProcess where
  target : Option Nat := none
  name : String := "Process"
  args : List Int := []
  kwargs : List (String × Int) := []
  daemon : Bool := false
  started : Bool := false
  alive : Bool := false
  exitcode : Option Int := none
  closed : Bool := false
  duration : Nat := 0
deriving DecidableEq, Repr

/-- CPython `Process.start`: raises on a closed or already-started process
object (process objects are single-use); otherwise the spawn either succeeds
or fails with an OS-level error, abstracted by the oracle `osOk`. -/
def PyProcess.os_start (p : PyProcess) (osOk : Bool) : Res PyProcess :=
  if p.closed then Res.err PyError.valueError
  else if p.started then Res.err PyError.assertionError
  else if osOk then Res.ok { p with started := true, alive := true, exitcode := none }
  else Res.err PyError.osError

/-- CPython `Process.join(timeout)`: raises on a closed or never-started
process; otherwise blocks until exit or until `timeout` elapses.  With no
timeout the process runs to completion (`exitcode` set); with timeout `t` the
process exits iff its remaining `duration` fits in `t`, else it stays alive
with `exitcode` still unset. -/
def PyProcess.os_join (p : PyProcess) (timeout : Option Nat) : Res PyProcess :=
  if p.closed then Res.err PyError.valueError
  else if !p.started then Res.err PyError.assertionError
  else if !p.alive then Res.ok p
  else
    match timeout with
    | none => Res.ok { p with alive := false, exitcode := some 0, duration := 0 }
    | some t =>
      if p.duration ≤ t then
        Res.ok { p with alive := false, exitcode := some 0, duration := 0 }
      else
        Res.ok { p with duration := p.duration - t }

/-- CPython `Process.terminate`: kills the process (abstracted as immediate);
raises on a closed process object. -/
def PyProcess.os_terminate (p : PyProcess) : Res PyProcess :=
  if p.closed then Res.err PyError.valueError
  else Res.ok { p with alive := false, exitcode := some (-15), duration := 0 }

/-- CPython `Process.close`: releasing the object's resources is only legal
while the process is not running; afterwards the object is marked closed. -/
def PyProcess.os_close (p : PyProcess) : Res PyProcess :=
  if p.alive then Res.err PyError.valueError
  else Res.ok { p with closed := true }

/-- CPython `Process.is_alive`: raises `ValueError` on a closed process
object, otherwise reports liveness. -/
def PyProcess.is_alive (p : PyProcess) : Res Bool :=
  if p.closed then Res.err PyError.valueError else Res.ok p.alive

/-- Model of `SeparateProcess`: at most one wrapped `Process` object plus the
stashed configuration attributes that `construct(delay=True)` records in the
instance dictionary when no process exists yet (reads of `_target`, `_args`,
`_kwargs`, `daemon`, `name` delegate to the wrapped process when present). -/
structure SeparateProcess where
  process : Option PyProcess := none
  stash_target : Option Nat := none
  stash_name : Option String := none
  stash_args : List Int := []
  stash_kwargs : List (String × Int) := []
  stash_daemon : Option Bool := none
deriving DecidableEq, Repr

/-- `SeparateProcess.is_alive`: `False` when no process was ever created,
else the wrapped process's `is_alive()` (which raises if the object was
closed). -/
def SeparateProcess.is_alive (sp : SeparateProcess) : Res Bool :=
  match sp.process with
  | none => Res.ok false
  | some p => p.is_alive

/-- The `Process()` creation and attribute-setting tail of
`SeparateProcess.create_process`: build a fresh process object and set only
the non-omitted fields on it ("Set attributes after stashed attributes are
set."). -/
def buildProcess (target : Option Nat) (name : Option String) (args : List Int)
    (kwargs : List (String × Int)) (daemon : Option Bool) : PyProcess :=
  let newp : PyProcess := {}
  let newp := match name with
    | some n => { newp with name := n }
    | none => newp
  let newp := match target with
    | some t => { newp with target := some t }
    | none => newp
  let newp := match daemon with
    | some d => { newp with daemon := d }
    | none => newp
  let newp := if args = [] then newp else { newp with args := args }
  if kwargs = [] then newp else { newp with kwargs := kwargs }

/-- `SeparateProcess.create_process(target, name, args, kwargs, daemon)`:
when a process object already exists, each omitted field (`None` target,
`None` daemon, empty args, empty kwargs) inherits the previous process's
value; then a fresh `Process()` is created and only the non-omitted resulting
fields are set on it (`buildProcess`).  The `name` is never inherited. -/
def SeparateProcess.create_process (sp : SeparateProcess) (target : Option Nat)
    (name : Option String) (args : List Int) (kwargs : List (String × Int))
    (daemon : Option Bool) : SeparateProcess :=
  let target := match sp.process, target with
    | some p, none => p.target
    | _, t => t
  let daemon := match sp.process, daemon with
    | some p, none => some p.daemon
    | _, d => d
  let args := match sp.process with
    | some p => if args = [] then p.args else args
    | none => args
  let kwargs := match sp.process with
    | some p => if kwargs = [] then p.kwargs else kwargs
    | none => kwargs
  { sp with process := some (buildProcess target name args kwargs daemon) }

/-- `SeparateProcess.construct` with `delay=False` (the only path the claims
exercise): stash the name if given, then create the process now. -/
def SeparateProcess.construct (sp : SeparateProcess) (target : Option Nat)
    (name : Option String) (args : List Int) (kwargs : List (String × Int))
    (daemon : Option Bool) : SeparateProcess :=
  let sp := match name with
    | some n => { sp with stash_name := some n }
    | none => sp
  sp.create_process target name args kwargs daemon

/-- `SeparateProcess(target, name, args, kwargs, daemon)` with `init=True`,
`delay=False`. -/
def SeparateProcess.new (target : Option Nat) (name : Option String)
    (args : List Int) (kwargs : List (String × Int)) (daemon : Option Bool) :
    SeparateProcess :=
  SeparateProcess.construct {} target name args kwargs daemon

/-- `SeparateProcess.start`: try `self._process.start()`; on any failure
(including there being no process at all) silently `create_process()` — which
inherits the stored configuration — and start the fresh process, letting a
second failure propagate.  `os1`/`os2` are the OS spawn oracles for the two
attempts. -/
def SeparateProcess.start (sp : SeparateProcess) (os1 os2 : Bool) :
    Res SeparateProcess :=
  let attempt1 : Res PyProcess :=
    match sp.process with
    | none => Res.err PyError.attributeError
    | some p => p.os_start os1
  match attempt1 with
  | Res.ok p1 => Res.ok { sp with process := some p1 }
  | Res.err _ =>
    let sp2 := sp.create_process none none [] [] none
    match sp2.process with
    | none => Res.err PyError.attributeError
    | some p2 =>
      match p2.os_start os2 with
      | Res.ok p3 => Res.ok { sp2 with process := some p3 }
      | Res.err e => Res.err e

/-- `SeparateProcess.join(timeout)`: `self._process.join(timeout)` followed by
the timeout check — one `TimeoutWarning` is emitted iff `exitcode` is still
unset afterwards.  Returns the updated handle and the warnings emitted. -/
def SeparateProcess.join (sp : SeparateProcess) (timeout : Option Nat) :
    Res (SeparateProcess × List Warning) :=
  match sp.process with
  | none => Res.err PyError.attributeError
  | some p =>
    match p.os_join timeout with
    | Res.err e => Res.err e
    | Res.ok p1 =>
      Res.ok ({ sp with process := some p1 },
        if p1.exitcode = none then [Warning.timeoutWarning] else [])

/-- `SeparateProcess.close`: terminate the wrapped process if it is alive
(querying `is_alive()`, which raises on an already-closed object), then close
the process object; the handle keeps the closed object. -/
def SeparateProcess.close (sp : SeparateProcess) : Res SeparateProcess :=
  match sp.process with
  | none => Res.ok sp
  | some p =>
    match p.is_alive with
    | Res.err e => Res.err e
    | Res.ok alive =>
      let p1res := if alive then p.os_terminate else Res.ok p
      match p1res with
      | Res.err e => Res.err e
      | Res.ok p1 =>
        match p1.os_close with
        | Res.err e => Res.err e
        | Res.ok p2 => Res.ok { sp with process := some p2 }

/-- Keyword dictionary captured by `SeparateProcess.__getstate__` from a live
process object (`target`, `name`, `args`, `kwargs`, `daemon`). -/
structure ProcKwargs where
  target : Option Nat
  pname : String
  args : List Int
  kwargs : List (String × Int)
  daemon : Bool
deriving DecidableEq, Repr

/-- The pickled form of a `SeparateProcess`: the copied instance dictionary
with the process reference nulled and `new_process_kwargs` added. -/
structure PickledHandle where
  stash_target : Option Nat
  stash_name : Option String
  stash_args : List Int
  stash_kwargs : List (String × Int)
  stash_daemon : Option Bool
  new_process_kwargs : Option ProcKwargs
deriving DecidableEq, Repr

/-- `SeparateProcess.__getstate__`: copy the instance dictionary, capture the
launch configuration from the wrapped process when one exists (else record
`None`), and drop the process reference. -/
def SeparateProcess.getstate (sp : SeparateProcess) : PickledHandle :=
  { stash_target := sp.stash_target
    stash_name := sp.stash_name
    stash_args := sp.stash_args
    stash_kwargs := sp.stash_kwargs
    stash_daemon := sp.stash_daemon
    new_process_kwargs :=
      sp.process.map (fun p => ⟨p.target, p.name, p.args, p.kwargs, p.daemon⟩) }

/-- `SeparateProcess.__setstate__`: restore the instance dictionary (process
reference is `None`) and, when configuration kwargs were captured, re-create
— but do not start — a process from them. -/
def SeparateProcess.setstate (d : PickledHandle) : SeparateProcess :=
  let sp : SeparateProcess :=
    { process := none
      stash_target := d.stash_target
      stash_name := d.stash_name
      stash_args := d.stash_args
      stash_kwargs := d.stash_kwargs
      stash_daemon := d.stash_daemon }
  match d.new_process_kwargs with
  | none => sp
  | some kw => sp.create_process kw.target (some kw.pname) kw.args kw.kwargs (some kw.daemon)

/-- External task object, abstracted to the single bit the unit's control
flow consults: whether `task.is_async()` reports true. -/
structure TaskSpec where
  is_async : Bool
deriving DecidableEq, Repr

/-- State of a `ProcessingUnit`.  `_is_processing` and `_joined` are the two
plain boolean flags of the Python object; `setup_is_coroutine` /
`closure_is_coroutine` record whether the configured `_execute_setup` /
`_execute_closure` callables are coroutine functions. -/
structure ProcessingUnit where
  name : String
  allow_setup : Bool
  allow_closure : Bool
  await_closure : Bool
  separate_process : Bool
  _is_processing : Bool
  process : Option SeparateProcess
  _joined : Bool
  task_is_async : Bool
  setup_is_coroutine : Bool
  closure_is_coroutine : Bool
deriving DecidableEq, Repr

/-- Observable events performed by the unit's execution methods, in program
order. -/
inductive Event where
  | setJoined (b : Bool)
  | setupSync
  | setupAwait
  | taskRun
  | taskStart
  | taskRunCoro
  | taskStartCoro
  | procTargetMethod (method : String)
  | procStart
  | procJoinBlocking
  | procJoinAsync
  | raceWarn
  | closureSync
  | closureAwait
  | taskStop
  | taskStopJoin (join : Bool) (timeout : Option Nat)
  | unitJoin (timeout : Option Nat)
deriving DecidableEq, Repr

/-- Replay of an event on the unit state: the execution methods only mutate
the `_joined` flag (recorded as `setJoined` events); no event touches
`_is_processing`. -/
def ProcessingUnit.applyEvent (u : ProcessingUnit) : Event → ProcessingUnit
  | Event.setJoined b => { u with _joined := b }
  | _ => u

/-- `ProcessingUnit.is_async`: true when the configured setup or closure
callable is a coroutine function, or — only when not in separate-process
mode — when the task object reports async. -/
def ProcessingUnit.is_async (u : ProcessingUnit) : Bool :=
  u.setup_is_coroutine || u.closure_is_coroutine ||
    (!u.separate_process && u.task_is_async)

/-- `ProcessingUnit.is_processing`: with a process handle in separate-process
mode the flag is refreshed from the handle's liveness; otherwise the stored
flag is returned as-is. -/
def ProcessingUnit.is_processing (u : ProcessingUnit) : Res Bool :=
  match u.process with
  | some sp => if u.separate_process then sp.is_alive else Res.ok u._is_processing
  | none => Res.ok u._is_processing

/-- `ProcessingUnit.run_normal`: clear `_joined`, optionally run setup, run
the task (in-process call or separate-process target-and-start), optionally
wait/warn and run closure, finally set `_joined`. -/
def ProcessingUnit.run_normal (u : ProcessingUnit) : List Event :=
  [Event.setJoined false]
  ++ (if u.allow_setup then [Event.setupSync] else [])
  ++ (if u.separate_process then [Event.procTargetMethod "run", Event.procStart]
      else [Event.taskRun])
  ++ (if u.allow_closure then
        (if u.separate_process then
          (if u.await_closure then [Event.procJoinBlocking] else [Event.raceWarn])
        else [])
        ++ [Event.closureSync]
      else [])
  ++ [Event.setJoined true]

/-- `ProcessingUnit.start_normal`: as `run_normal` but dispatching the task's
`start` method. -/
def ProcessingUnit.start_normal (u : ProcessingUnit) : List Event :=
  [Event.setJoined false]
  ++ (if u.allow_setup then [Event.setupSync] else [])
  ++ (if u.separate_process then [Event.procTargetMethod "start", Event.procStart]
      else [Event.taskStart])
  ++ (if u.allow_closure then
        (if u.separate_process then
          (if u.await_closure then [Event.procJoinBlocking] else [Event.raceWarn])
        else [])
        ++ [Event.closureSync]
      else [])
  ++ [Event.setJoined true]

/-- `ProcessingUnit.run_coro`, translated with the source's indentation kept
as written: the whole `if self.allow_closure:` block sits inside the
in-process `else` branch, so in separate-process mode the coroutine performs
no closure phase at all (the `if self.separate_process:` test inside that
block is consequently dead code). -/
def ProcessingUnit.run_coro (u : ProcessingUnit) : List Event :=
  [Event.setJoined false]
  ++ (if u.allow_setup then
        if u.setup_is_coroutine then [Event.setupAwait] else [Event.setupSync]
      else [])
  ++ (if u.separate_process then
        [Event.procTargetMethod "run", Event.procStart]
      else
        (if u.task_is_async then [Event.taskRunCoro] else [Event.taskRun])
        ++ (if u.allow_closure then
              (if u.separate_process then
                (if u.await_closure then [Event.procJoinAsync] else [Event.raceWarn])
              else [])
              ++ (if u.closure_is_coroutine then [Event.closureAwait] else [Event.closureSync])
            else []))
  ++ [Event.setJoined true]

/-- `ProcessingUnit.start_coro`: the cooperative `start` path; here the
closure block is at the outer level, as in the blocking methods. -/
def ProcessingUnit.start_coro (u : ProcessingUnit) : List Event :=
  [Event.setJoined false]
  ++ (if u.allow_setup then
        if u.setup_is_coroutine then [Event.setupAwait] else [Event.setupSync]
      else [])
  ++ (if u.separate_process then
        [Event.procTargetMethod "start", Event.procStart]
      else if u.task_is_async then [Event.taskStartCoro] else [Event.taskStart])
  ++ (if u.allow_closure then
        (if u.separate_process then
          (if u.await_closure then [Event.procJoinAsync] else [Event.raceWarn])
        else [])
        ++ (if u.closure_is_coroutine then [Event.closureAwait] else [Event.closureSync])
      else [])
  ++ [Event.setJoined true]

/-- `ProcessingUnit.run`: dispatch to the cooperative path when `is_async()`,
else to the blocking path. -/
def ProcessingUnit.run (u : ProcessingUnit) : List Event :=
  if u.is_async then u.run_coro else u.run_normal

/-- `ProcessingUnit.start`: dispatch to the cooperative path when
`is_async()`, else to the blocking path. -/
def ProcessingUnit.start (u : ProcessingUnit) : List Event :=
  if u.is_async then u.start_coro else u.start_normal

/-- Outcome of `ProcessingUnit.join`/`join_async`.  `immediate b` means the
poll loop body never ran and, iff `b`, the unit went on to join its process
handle with the remaining budget; `timedOut` means the loop spun until the
deadline and returned without touching the process handle; `diverges` means
the untimed loop never exits (in this single-writer model nothing else flips
`_joined` while the loop runs). -/
inductive JoinOutcome where
  | immediate (joinedProcessHandle : Bool)
  | timedOut
  | diverges
deriving DecidableEq, Repr

/-- `ProcessingUnit.join(timeout)`: busy-poll `_joined`; on success, join the
process handle with the remaining budget when in separate-process mode. -/
def ProcessingUnit.join (u : ProcessingUnit) (timeout : Option Nat) : JoinOutcome :=
  if u._joined then JoinOutcome.immediate u.separate_process
  else
    match timeout with
    | some _ => JoinOutcome.timedOut
    | none => JoinOutcome.diverges

/-- `ProcessingUnit.join_async(timeout, interval)`: the cooperative poll loop
with the same structure and exit conditions as `join`. -/
def ProcessingUnit.join_async (u : ProcessingUnit) (timeout : Option Nat) : JoinOutcome :=
  if u._joined then JoinOutcome.immediate u.separate_process
  else
    match timeout with
    | some _ => JoinOutcome.timedOut
    | none => JoinOutcome.diverges

/-- `ProcessingUnit.stop(join, timeout)`: call `task.stop()` with no
arguments, then `join(timeout)` iff `join` is true. -/
def ProcessingUnit.stop (_u : ProcessingUnit) (join : Bool) (timeout : Option Nat) :
    List Event :=
  [Event.taskStop] ++ (if join then [Event.unitJoin timeout] else [])

/-- `ProcessingUnit.__init__` with `init=True` and a task object supplied:
flags recorded, `_is_processing := False`, `_joined := True`, a
`SeparateProcess` created (not started) only in separate-process mode, and
the default `setup`/`closure` methods (plain functions) installed. -/
def ProcessingUnit.init (name : String) (task : TaskSpec)
    (separate_process daemon allow_setup allow_closure : Bool) : ProcessingUnit :=
  { name := name
    allow_setup := allow_setup
    allow_closure := allow_closure
    await_closure := false
    separate_process := separate_process
    _is_processing := false
    process :=
      if separate_process then
        some (SeparateProcess.new none (some name) [] [] (some daemon))
      else none
    _joined := true
    task_is_async := task.is_async
    setup_is_coroutine := false
    closure_is_coroutine := false }

/-- `ProcessingCluster.stop(join, timeout)`: call `task.stop(join=join,
timeout=timeout)` — passing the budget down — then `join(timeout)` iff `join`
is true.  A cluster carries no state beyond `ProcessingUnit`. -/
def ProcessingCluster.stop (_u : ProcessingUnit) (join : Bool) (timeout : Option Nat) :
    List Event :=
  [Event.taskStopJoin join timeout] ++ (if join then [Event.unitJoin timeout] else [])

/-- Concrete unit exercising the separate-process cooperative `run` path:
`is_async()` is true because the configured setup callable is a coroutine
function, so the public `run` dispatch selects `run_coro`. -/
def coopSepUnit : ProcessingUnit :=
  { name := "c1"
    allow_setup := true
    allow_closure := true
    await_closure := true
    separate_process := true
    _is_processing := false
    process := some (SeparateProcess.new none (some "c1") [] [] (some false))
    _joined := true
    task_is_async := false
    setup_is_coroutine := true
    closure_is_coroutine := false }

/-- Variant of `coopSepUnit` with a coroutine closure callable and
`await_closure` off. -/
def coopSepUnit2 : ProcessingUnit :=
  { coopSepUnit with name := "c2", closure_is_coroutine := true, await_closure := false }

/-- Freshly constructed in-process unit with setup and closure allowed. -/
def inProcUnit : ProcessingUnit :=
  ProcessingUnit.init "c9" { is_async := false } false false true true

/-- A live (started, running) process object with fully populated launch
configuration. -/
def liveProc : PyProcess :=
  { target := some 7
    name := "w"
    args := [3]
    kwargs := [("k", 2)]
    daemon := true
    started := true
    alive := true
    exitcode := none
    closed := false
    duration := 5 }

/-- Handle wrapping `liveProc`. -/
def liveHandle : SeparateProcess := { process := some liveProc }

/-- A process object that has already run to completion. -/
def doneProc : PyProcess :=
  { target := some 4
    name := "d"
    args := [1]
    kwargs := []
    daemon := false
    started := true
    alive := false
    exitcode := some 0
    closed := false
    duration := 0 }

/-- Handle wrapping `doneProc`. -/
def doneHandle : SeparateProcess := { process := some doneProc }

/-- What `liveProc` becomes after `close()` on its handle: terminated and
closed, configuration untouched. -/
def closedProc : PyProcess :=
  { liveProc with alive := false, exitcode := some (-15), duration := 0, closed := true }

/-- The handle after `liveHandle.close()`. -/
def closedHandle : SeparateProcess := { liveHandle with process := some closedProc }

/-- Field-level characterisation of `buildProcess`: the result is a fresh,
never-started process object carrying exactly the resolved configuration. -/
theorem buildProcess_spec (target : Option Nat) (name : Option String)
    (args : List Int) (kwargs : List (String × Int)) (daemon : Option Bool) :
    (buildProcess target name args kwargs daemon).started = false ∧
    (buildProcess target name args kwargs daemon).alive = false ∧
    (buildProcess target name args kwargs daemon).closed = false ∧
    (buildProcess target name args kwargs daemon).exitcode = none ∧
    (buildProcess target name args kwargs daemon).target = target ∧
    (buildProcess target name args kwargs daemon).name = name.getD "Process" ∧
    (buildProcess target name args kwargs daemon).args = args ∧
    (buildProcess target name args kwargs daemon).kwargs = kwargs ∧
    (buildProcess target name args kwargs daemon).daemon = daemon.getD false := by
  unfold buildProcess
  cases name <;> cases target <;> cases daemon <;>
    by_cases ha : args = [] <;> by_cases hk : kwargs = [] <;>
      simp_all

/-- Helper: `create_process` on a handle with no prior process sets exactly
the provided fields on a fresh, never-started process object and inherits
nothing. -/
theorem create_process_none_spec (sp : SeparateProcess) (hsp : sp.process = none)
    (target : Option Nat) (name : Option String) (args : List Int)
    (kwargs : List (String × Int)) (daemon : Option Bool) :
    ∃ p1, (sp.create_process target name args kwargs daemon).process = some p1 ∧
      p1.started = false ∧ p1.alive = false ∧ p1.closed = false ∧ p1.exitcode = none ∧
      p1.target = target ∧
      p1.name = name.getD "Process" ∧
      p1.args = args ∧ p1.kwargs = kwargs ∧
      p1.daemon = daemon.getD false := by
  unfold SeparateProcess.create_process
  rw [hsp]
  exact ⟨_, rfl, buildProcess_spec target name args kwargs daemon⟩

/-- Helper: `create_process` on a handle with a prior process object builds a
fresh, never-started process whose omitted fields (target, daemon, args,
kwargs) each independently inherit the prior process's values, while provided
fields take the new values. -/
theorem create_process_some_spec (sp : SeparateProcess) (p : PyProcess)
    (hsp : sp.process = some p) (target : Option Nat) (name : Option String)
    (args : List Int) (kwargs : List (String × Int)) (daemon : Option Bool) :
    ∃ p1, (sp.create_process target name args kwargs daemon).process = some p1 ∧
      p1.started = false ∧ p1.alive = false ∧ p1.closed = false ∧ p1.exitcode = none ∧
      p1.target = (match target with | some t => some t | none => p.target) ∧
      p1.name = name.getD "Process" ∧
      p1.args = (if args = [] then p.args else args) ∧
      p1.kwargs = (if kwargs = [] then p.kwargs else kwargs) ∧
      p1.daemon = (match daemon with | some d => d | none => p.daemon) := by
  unfold SeparateProcess.create_process
  rw [hsp]
  cases target <;> cases daemon <;>
    exact ⟨_, rfl, buildProcess_spec _ _ _ _ _⟩

/-- C1: the claim that every dispatch runs setup, then task, then closure
(under the allow-flags) in all four mode combinations fails on the code: in
separate-process cooperative mode the `run` dispatch selects `run_coro`,
whose closure block is nested inside the in-process branch, so the closure
phase never executes even though `allow_closure` is true — unlike
`start_coro` and the blocking path on the very same unit. -/
theorem C1_run_coro_separate_process_skips_closure :
    coopSepUnit.allow_closure = true ∧
    coopSepUnit.separate_process = true ∧
    ProcessingUnit.is_async coopSepUnit = true ∧
    ProcessingUnit.run coopSepUnit = ProcessingUnit.run_coro coopSepUnit ∧
    Event.closureSync ∉ ProcessingUnit.run coopSepUnit ∧
    Event.closureAwait ∉ ProcessingUnit.run coopSepUnit ∧
    Event.closureSync ∈ ProcessingUnit.start coopSepUnit ∧
    Event.closureSync ∈ ProcessingUnit.run_normal coopSepUnit := by decide

/-- C2: the claim that `_joined` flips back to true only after the entire
allowed phase sequence completes fails on the same code path: in
separate-process cooperative `run`, the trace begins with `setJoined false`
and ends with `setJoined true` although the allowed closure phase never
executed at all. -/
theorem C2_joined_set_true_without_closure :
    coopSepUnit2.allow_closure = true ∧
    coopSepUnit2.separate_process = true ∧
    (ProcessingUnit.run_coro coopSepUnit2).head? = some (Event.setJoined false) ∧
    (ProcessingUnit.run_coro coopSepUnit2).getLast? = some (Event.setJoined true) ∧
    Event.closureSync ∉ ProcessingUnit.run_coro coopSepUnit2 ∧
    Event.closureAwait ∉ ProcessingUnit.run_coro coopSepUnit2 := by decide

/-- C4: `ProcessingCluster.stop(join, timeout)` first invokes the composed
task's `stop` with the same `join` and `timeout` arguments and only
afterwards, when `join` is true, performs the cluster's own `join(timeout)`;
the base `ProcessingUnit.stop` instead invokes `task.stop()` with no
arguments and then joins itself when `join` is true. -/
theorem C4_cluster_stop_delegates_budget (u : ProcessingUnit) (j : Bool)
    (t : Option Nat) :
    (ProcessingCluster.stop u j t).head? = some (Event.taskStopJoin j t) ∧
    (j = true → ProcessingCluster.stop u j t =
      [Event.taskStopJoin j t, Event.unitJoin t]) ∧
    (j = false → ProcessingCluster.stop u j t = [Event.taskStopJoin j t]) ∧
    (ProcessingUnit.stop u j t).head? = some Event.taskStop ∧
    (j = true → ProcessingUnit.stop u j t = [Event.taskStop, Event.unitJoin t]) ∧
    (j = false → ProcessingUnit.stop u j t = [Event.taskStop]) := by
  cases j <;> simp [ProcessingCluster.stop, ProcessingUnit.stop]

/-- Witness for C4 at `join = true`, `timeout = 5`: the composed task's stop
receives the budget and precedes the cluster's own join. -/
theorem C4_cluster_stop_delegates_budget_witness :
    ProcessingCluster.stop coopSepUnit true (some 5) =
      [Event.taskStopJoin true (some 5), Event.unitJoin (some 5)] ∧
    ProcessingUnit.stop coopSepUnit true (some 5) =
      [Event.taskStop, Event.unitJoin (some 5)] :=
  ⟨(C4_cluster_stop_delegates_budget coopSepUnit true (some 5)).2.1 rfl,
   (C4_cluster_stop_delegates_budget coopSepUnit true (some 5)).2.2.2.2.1 rfl⟩

/-- C9 counterexample: on a freshly constructed in-process unit, a complete
`run()` dispatch (which does execute the task phase) never makes
`is_processing` true — the stored flag is not touched at any point of the
trace, so the claim that it "is true while a dispatched execution is in
progress" is false at this input. -/
theorem C9_in_process_flag_never_set :
    inProcUnit.separate_process = false ∧
    Event.taskRun ∈ ProcessingUnit.run inProcUnit ∧
    (List.range ((ProcessingUnit.run inProcUnit).length + 1)).all
      (fun i => decide (ProcessingUnit.is_processing
        (List.foldl ProcessingUnit.applyEvent inProcUnit
          ((ProcessingUnit.run inProcUnit).take i)) = Res.ok false)) = true := by
  decide

/-- C9 amended: `is_processing` reports the process handle's liveness when a
handle exists and the unit is in separate-process mode; otherwise it returns
the unit's stored `_is_processing` flag unchanged — and no event of any
dispatched execution ever modifies that stored flag, which the constructor
initialises to false. -/
theorem C9_is_processing_semantics (u : ProcessingUnit) (e : Event)
    (n : String) (ts : TaskSpec) (s d a c : Bool) :
    (∀ sp, u.process = some sp → u.separate_process = true →
      u.is_processing = sp.is_alive) ∧
    (u.separate_process = false → u.is_processing = Res.ok u._is_processing) ∧
    (u.process = none → u.is_processing = Res.ok u._is_processing) ∧
    (u.applyEvent e)._is_processing = u._is_processing ∧
    (ProcessingUnit.init n ts s d a c)._is_processing = false := by
  refine ⟨?_, ?_, ?_, ?_, rfl⟩
  · intro sp hsp hsep
    simp [ProcessingUnit.is_processing, hsp, hsep]
  · intro hsep
    cases hu : u.process <;> simp [ProcessingUnit.is_processing, hu, hsep]
  · intro hnone
    simp [ProcessingUnit.is_processing, hnone]
  · cases e <;> rfl

/-- Witness for C9's amended statement on the concrete in-process unit. -/
theorem C9_is_processing_semantics_witness :
    ProcessingUnit.is_processing inProcUnit = Res.ok false :=
  (C9_is_processing_semantics inProcUnit Event.taskRun "c9"
    { is_async := false } false false true true).2.1 rfl

/-- C7 counterexample: closing the handle of a live process succeeds, but the
handle keeps the closed process object, so `is_alive()` afterwards raises
`ValueError` instead of reporting false. -/
theorem C7_close_counterexample :
    SeparateProcess.close liveHandle = Res.ok closedHandle ∧
    SeparateProcess.is_alive closedHandle = Res.err PyError.valueError ∧
    SeparateProcess.is_alive closedHandle ≠ Res.ok false := by decide

/-- C10: a freshly constructed unit already has `_joined = true`, so
`join(timeout)` (and `join_async`) called before any dispatch exits the poll
loop immediately, and for an in-process unit does so without touching any
process handle. -/
theorem C10_fresh_unit_join_immediate (n : String) (ts : TaskSpec) (d a c : Bool)
    (t : Option Nat) :
    (ProcessingUnit.init n ts false d a c)._joined = true ∧
    (ProcessingUnit.init n ts true d a c)._joined = true ∧
    ProcessingUnit.join (ProcessingUnit.init n ts false d a c) t =
      JoinOutcome.immediate false ∧
    ProcessingUnit.join_async (ProcessingUnit.init n ts false d a c) t =
      JoinOutcome.immediate false := by
  refine ⟨rfl, rfl, ?_, ?_⟩ <;>
    simp [ProcessingUnit.join, ProcessingUnit.join_async, ProcessingUnit.init]

/-- C3: pickling a handle and unpickling it yields a handle whose process
object (when one existed) is freshly created and not started, with launch
configuration (target, name, args, kwargs, daemon) captured from the live
process; when no process existed, the stored (stashed) configuration survives
the round trip unchanged and no process is reconstructed. -/
theorem C3_pickle_roundtrip (sp : SeparateProcess) :
    (∀ p, sp.process = some p →
      ∃ p1, (SeparateProcess.setstate sp.getstate).process = some p1 ∧
        p1.started = false ∧ p1.alive = false ∧ p1.closed = false ∧
        p1.target = p.target ∧ p1.name = p.name ∧ p1.args = p.args ∧
        p1.kwargs = p.kwargs ∧ p1.daemon = p.daemon) ∧
    (sp.process = none →
      SeparateProcess.setstate sp.getstate = { sp with process := none }) := by
  constructor
  · intro p hp
    have hs : SeparateProcess.setstate sp.getstate =
        SeparateProcess.create_process
          { process := none
            stash_target := sp.stash_target
            stash_name := sp.stash_name
            stash_args := sp.stash_args
            stash_kwargs := sp.stash_kwargs
            stash_daemon := sp.stash_daemon }
          p.target (some p.name) p.args p.kwargs (some p.daemon) := by
      simp [SeparateProcess.getstate, SeparateProcess.setstate, hp]
    rw [hs]
    obtain ⟨p1, h1, h2, h3, h4, _, htg, hnm, har, hkw, hdm⟩ :=
      create_process_none_spec
        (SeparateProcess.mk none sp.stash_target sp.stash_name sp.stash_args sp.stash_kwargs sp.stash_daemon)
        rfl p.target (some p.name) p.args p.kwargs (some p.daemon)
    exact ⟨p1, h1, h2, h3, h4, htg, hnm, har, hkw, hdm⟩
  · intro hn
    simp [SeparateProcess.getstate, SeparateProcess.setstate, hn]

/-- Witness for C3 on a handle wrapping a live, fully configured process. -/
theorem C3_pickle_roundtrip_witness :
    ∃ p1, (SeparateProcess.setstate liveHandle.getstate).process = some p1 ∧
      p1.started = false ∧ p1.alive = false ∧ p1.closed = false ∧
      p1.target = liveProc.target ∧ p1.name = liveProc.name ∧
      p1.args = liveProc.args ∧ p1.kwargs = liveProc.kwargs ∧
      p1.daemon = liveProc.daemon :=
  (C3_pickle_roundtrip liveHandle).1 liveProc rfl

/-- C5: when the first `start()` attempt fails — as it does on a single-use
process object that already ran — the handle recreates a fresh process
inheriting the stored configuration and retries exactly once; if the retry
succeeds the handle holds the new running process, and if the retry also
fails that second failure propagates to the caller with no further attempt. -/
theorem C5_start_retries_exactly_once (sp : SeparateProcess) (p : PyProcess)
    (os1 os2 : Bool) (hp : sp.process = some p) (hstarted : p.started = true)
    (hnc : p.closed = false) :
    (os2 = true → ∃ p3, sp.start os1 os2 = Res.ok { sp with process := some p3 } ∧
      p3.started = true ∧ p3.alive = true ∧
      p3.target = p.target ∧ p3.daemon = p.daemon ∧
      p3.args = p.args ∧ p3.kwargs = p.kwargs) ∧
    (os2 = false → sp.start os1 os2 = Res.err PyError.osError) := by
  have ha1 : (match sp.process with
      | none => Res.err PyError.attributeError
      | some q => q.os_start os1) = Res.err PyError.assertionError := by
    rw [hp]
    simp [PyProcess.os_start, hstarted, hnc]
  obtain ⟨p1, h1, hst1, hal1, hcl1, hec1, htg, hnm, har, hkw, hdm⟩ :=
    create_process_some_spec sp p hp none none [] [] none
  have hs : sp.start os1 os2 =
      (match p1.os_start os2 with
       | Res.ok p3 =>
         Res.ok { sp.create_process none none [] [] none with process := some p3 }
       | Res.err e => Res.err e) := by
    simp only [SeparateProcess.start, ha1, h1]
  constructor
  · intro h2
    subst h2
    refine ⟨{ p1 with started := true, alive := true, exitcode := none },
      ?_, rfl, rfl, ?_, ?_, ?_, ?_⟩
    · rw [hs]
      simp [PyProcess.os_start, hst1, hcl1]
      exact ⟨rfl, rfl, rfl, rfl, rfl⟩
    · exact htg
    · exact hdm
    · exact har
    · exact hkw
  · intro h2
    subst h2
    rw [hs]
    simp [PyProcess.os_start, hst1, hcl1]

/-- Witness for C5 on a handle whose process already ran to completion:
retry succeeds when the OS permits the second spawn, and the second failure
propagates when it does not. -/
theorem C5_start_retries_exactly_once_witness :
    (∃ p3, SeparateProcess.start doneHandle true true =
        Res.ok { doneHandle with process := some p3 } ∧
      p3.started = true ∧ p3.alive = true ∧
      p3.target = doneProc.target ∧ p3.daemon = doneProc.daemon ∧
      p3.args = doneProc.args ∧ p3.kwargs = doneProc.kwargs) ∧
    SeparateProcess.start doneHandle true false = Res.err PyError.osError :=
  ⟨(C5_start_retries_exactly_once doneHandle doneProc true true rfl rfl rfl).1 rfl,
   (C5_start_retries_exactly_once doneHandle doneProc true false rfl rfl rfl).2 rfl⟩

/-- C6: `join(timeout)` on a live process that outlasts the deadline returns
normally (no exception) with exactly one `TimeoutWarning` and leaves the
process running; `join(None)` waits for the exit and emits no warning. -/
theorem C6_join_timeout_warning (sp : SeparateProcess) (p : PyProcess) (t : Nat)
    (hp : sp.process = some p) (hst : p.started = true) (hal : p.alive = true)
    (hnc : p.closed = false) (hec : p.exitcode = none) (hdur : t < p.duration) :
    sp.join (some t) =
      Res.ok ({ sp with process := some { p with duration := p.duration - t } },
        [Warning.timeoutWarning]) ∧
    ({ p with duration := p.duration - t } : PyProcess).alive = true ∧
    sp.join none =
      Res.ok ({ sp with process := some { p with alive := false, exitcode := some 0, duration := 0 } }, []) := by
  have hj1 : p.os_join (some t) = Res.ok { p with duration := p.duration - t } := by
    simp [PyProcess.os_join, hst, hal, hnc, Nat.not_le.mpr hdur]
  have hj2 : p.os_join none =
      Res.ok { p with alive := false, exitcode := some 0, duration := 0 } := by
    simp [PyProcess.os_join, hst, hal, hnc]
  refine ⟨?_, hal, ?_⟩
  · simp [SeparateProcess.join, hp, hj1, hec]
  · simp [SeparateProcess.join, hp, hj2]

/-- Witness for C6 on a live process with 5 time units left and a budget of
2: one timeout warning and the process keeps running; the untimed join waits
it out silently. -/
theorem C6_join_timeout_warning_witness :
    SeparateProcess.join liveHandle (some 2) =
      Res.ok ({ liveHandle with
        process := some { liveProc with duration := liveProc.duration - 2 } },
        [Warning.timeoutWarning]) ∧
    ({ liveProc with duration := liveProc.duration - 2 } : PyProcess).alive = true ∧
    SeparateProcess.join liveHandle none =
      Res.ok ({ liveHandle with process := some { liveProc with alive := false, exitcode := some 0, duration := 0 } }, []) :=
  C6_join_timeout_warning liveHandle liveProc 2 rfl rfl rfl rfl rfl (by decide)

/-- C7 amended: `close()` terminates the process if it was alive and closes
the process object, releasing its resources; the handle retains the closed
object with its full launch configuration and the process is no longer
alive, but `is_alive()` afterwards raises `ValueError` (closed process
object) rather than reporting false. -/
theorem C7_close_terminates_and_keeps_config (sp : SeparateProcess) (p : PyProcess)
    (hp : sp.process = some p) (hnc : p.closed = false) :
    ∃ p2, sp.close = Res.ok { sp with process := some p2 } ∧
      p2.alive = false ∧ p2.closed = true ∧
      p2.target = p.target ∧ p2.name = p.name ∧ p2.args = p.args ∧
      p2.kwargs = p.kwargs ∧ p2.daemon = p.daemon ∧
      SeparateProcess.is_alive { sp with process := some p2 } =
        Res.err PyError.valueError := by
  cases hal : p.alive
  · refine ⟨{ p with closed := true }, ?_, hal, rfl, rfl, rfl, rfl, rfl, rfl, ?_⟩
    · simp [SeparateProcess.close, hp, PyProcess.is_alive, hnc, hal,
        PyProcess.os_close]
    · simp [SeparateProcess.is_alive, PyProcess.is_alive]
  · refine ⟨{ p with alive := false, exitcode := some (-15), duration := 0, closed := true }, ?_, rfl, rfl, rfl, rfl, rfl, rfl, rfl, ?_⟩
    · simp [SeparateProcess.close, hp, PyProcess.is_alive, hnc, hal,
        PyProcess.os_terminate, PyProcess.os_close]
    · simp [SeparateProcess.is_alive, PyProcess.is_alive]

/-- Witness for C7's amended statement on a handle wrapping an exited (but
not yet closed) process. -/
theorem C7_close_terminates_and_keeps_config_witness :
    ∃ p2, SeparateProcess.close doneHandle =
        Res.ok { doneHandle with process := some p2 } ∧
      p2.alive = false ∧ p2.closed = true ∧
      p2.target = doneProc.target ∧ p2.name = doneProc.name ∧
      p2.args = doneProc.args ∧ p2.kwargs = doneProc.kwargs ∧
      p2.daemon = doneProc.daemon ∧
      SeparateProcess.is_alive { doneHandle with process := some p2 } =
        Res.err PyError.valueError :=
  C7_close_terminates_and_keeps_config doneHandle doneProc rfl rfl

/-- C8: when a prior process object exists, each omitted `create_process`
field — target, daemon flag, positional arguments, keyword arguments —
independently inherits the previous configuration's value while provided
fields take the new value; with no prior process nothing is inherited. -/
theorem C8_create_process_inheritance (sp : SeparateProcess)
    (target : Option Nat) (name : Option String) (args : List Int)
    (kwargs : List (String × Int)) (daemon : Option Bool) :
    (∀ p, sp.process = some p →
      ∃ p1, (sp.create_process target name args kwargs daemon).process = some p1 ∧
        p1.started = false ∧
        p1.target = (match target with | some t => some t | none => p.target) ∧
        p1.daemon = (match daemon with | some d => d | none => p.daemon) ∧
        p1.args = (if args = [] then p.args else args) ∧
        p1.kwargs = (if kwargs = [] then p.kwargs else kwargs)) ∧
    (sp.process = none →
      ∃ p1, (sp.create_process target name args kwargs daemon).process = some p1 ∧
        p1.started = false ∧ p1.target = target ∧ p1.daemon = daemon.getD false ∧
        p1.args = args ∧ p1.kwargs = kwargs) := by
  constructor
  · intro p hp
    obtain ⟨p1, h1, h2, _, _, _, htg, _, har, hkw, hdm⟩ :=
      create_process_some_spec sp p hp target name args kwargs daemon
    exact ⟨p1, h1, h2, htg, hdm, har, hkw⟩
  · intro hn
    obtain ⟨p1, h1, h2, _, _, _, htg, _, har, hkw, hdm⟩ :=
      create_process_none_spec sp hn target name args kwargs daemon
    exact ⟨p1, h1, h2, htg, hdm, har, hkw⟩

/-- Witness for C8: omitted target and kwargs inherit from the previous
process, provided args and daemon take the new values. -/
theorem C8_create_process_inheritance_witness :
    ∃ p1, (SeparateProcess.create_process doneHandle none (some "n") [9] []
        (some true)).process = some p1 ∧
      p1.started = false ∧ p1.target = doneProc.target ∧ p1.daemon = true ∧
      p1.args = [9] ∧ p1.kwargs = doneProc.kwargs :=
  (C8_create_process_inheritance doneHandle none (some "n") [9] []
    (some true)).1 doneProc rfl

end ProcessingBlocks
